import Mathlib

/-!
Verification of the sunpower_ws stream-ingestion core
(custom_components/sunpower_ws/__init__.py and sensor.py).

The JSON-like values that flow through the integration are modelled by the
inductive type `JVal`; Python dicts are association lists (`Dict`) with
first-match lookup and replace-or-append assignment, which coincides with a
Python dict on the unique-key dicts the code builds.  Python floats are
modelled as rationals; Python `float(...)` coercion is `tryFloat`.
-/

/-- A JSON-like Python value: numbers (modelled as rationals), strings,
booleans, `None`, dicts (association lists) and lists. -/
inductive JVal where
  | num (q : ℚ)
  | str (s : String)
  | bool (b : Bool)
  | null
  | obj (fields : List (String × JVal))
  | arr (elems : List JVal)

/-- A Python dict of JSON values, as an association list. -/
abbrev Dict := List (String × JVal)

/-- Python `d[k]` / `d.get(k)`: first binding wins. -/
def Dict.get : Dict → String → Option JVal
  | [], _ => none
  | (k', v) :: rest, k => if k' = k then some v else Dict.get rest k

/-- Python `d[k] = v`: replace the existing binding in place, else append. -/
def Dict.insert : Dict → String → JVal → Dict
  | [], k, v => [(k, v)]
  | (k', v') :: rest, k, v =>
      if k' = k then (k, v) :: rest else (k', v') :: Dict.insert rest k v

/-- Decimal digit value of a character, if it is a digit. -/
def digitVal (c : Char) : Option Nat :=
  if c.isDigit then some (c.toNat - 48) else none

/-- Accumulate decimal digits left to right, tracking the digit count.
Fails on any non-digit character. -/
def parseDigitsAux : Option (Nat × Nat) → List Char → Option (Nat × Nat)
  | none, _ => none
  | some p, [] => some p
  | some (v, n), c :: rest =>
      match digitVal c with
      | some d => parseDigitsAux (some (v * 10 + d, n + 1)) rest
      | none => none

/-- Parse a run of decimal digits, returning the value and how many digits. -/
def parseDigitsL (cs : List Char) : Option (Nat × Nat) :=
  parseDigitsAux (some (0, 0)) cs

/-- Split a character list at the first dot. -/
def splitDot : List Char → List Char × Option (List Char)
  | [] => ([], none)
  | '.' :: rest => ([], some rest)
  | c :: rest =>
      let p := splitDot rest
      (c :: p.1, p.2)

/-- Python `float(s)` on a string, modelled for plain decimal literals with an
optional sign and at most one dot (the only string shapes the repository's
telemetry can carry); every other string fails, as `float` raises on it. -/
def parsePyFloat (s : String) : Option ℚ :=
  let cs := s.data
  let signed : Bool × List Char :=
    match cs with
    | '-' :: r => (true, r)
    | '+' :: r => (false, r)
    | _ => (false, cs)
  let p := splitDot signed.2
  let mag : Option ℚ :=
    match p.2 with
    | none =>
        match parseDigitsL p.1 with
        | some (v, n) => if n = 0 then none else some (v : ℚ)
        | none => none
    | some fp =>
        match parseDigitsL p.1, parseDigitsL fp with
        | some (iv, icount), some (fv, fcount) =>
            if icount = 0 ∧ fcount = 0 then none
            else some ((iv : ℚ) + (fv : ℚ) / (10 : ℚ) ^ fcount)
        | _, _ => none
  mag.map (fun m => if signed.1 then -m else m)

/-- Python `float(v)`: numbers pass through, booleans coerce to 0/1 (bool is a
subclass of int), strings are parsed, everything else raises (`none`). -/
def tryFloat : JVal → Option ℚ
  | .num q => some q
  | .bool b => some (if b then 1 else 0)
  | .str s => parsePyFloat s
  | _ => none

/-- Python `isinstance(v, (int, float))`; true for booleans as well, since
`bool` subclasses `int`. -/
def jIsNum : JVal → Bool
  | .num _ => true
  | .bool _ => true
  | _ => false

/-- Python truthiness of a JSON value. -/
def pyTruthy : JVal → Bool
  | .num q => q != 0
  | .str s => !(s = "")
  | .bool b => b
  | .null => false
  | .obj l => !l.isEmpty
  | .arr l => !l.isEmpty

/-- ASCII lower-casing, Python `s.lower()` on the identifiers at hand. -/
def lowerStr (s : String) : String := ⟨s.data.map Char.toLower⟩

/-- Is `pat` a prefix of the character list? -/
def isPrefixL : List Char → List Char → Bool
  | [], _ => true
  | _ :: _, [] => false
  | a :: as, b :: bs => a == b && isPrefixL as bs

/-- Python `pat in s` on character lists. -/
def containsSubL (pat : List Char) : List Char → Bool
  | [] => pat.isEmpty
  | c :: rest => isPrefixL pat (c :: rest) || containsSubL pat rest

/-- Python `pat in s` for strings. -/
def containsSub (s pat : String) : Bool := containsSubL pat.data s.data

/-- Rendering of an integer, used by the `str()` model below. -/
def renderInt (n : ℤ) : String :=
  if n < 0 then "-" ++ toString n.natAbs else toString n.natAbs

/-- Python `str(v)`.  Strings pass through (the only case the repository's
behaviour depends on); numbers are rendered as rationals, containers get a
placeholder, which is sound because no caller inspects those renderings. -/
def pyStr : JVal → String
  | .str s => s
  | .bool true => "True"
  | .bool false => "False"
  | .null => "None"
  | .num q => if q.den = 1 then renderInt q.num else renderInt q.num ++ "/" ++ toString q.den
  | .obj _ => "<dict>"
  | .arr _ => "<list>"

/-! ## Payload Normalizer (`SunPowerWSHub._normalize_payload`) -/

/-- The alias table `FIELD_MAP` from `__init__.py`. -/
def FIELD_MAP : List (String × List String) :=
  [ ("pv_kw", ["pv_p", "solar_p", "pv_kw"]),
    ("load_kw", ["site_load_p", "load_p", "load_kw"]),
    ("net_kw", ["net_p", "grid_p", "net_kw"]),
    ("solar_w", ["solar_w", "pv_w"]),
    ("load_w", ["load_w", "house_w"]),
    ("net_w", ["net_w"]),
    ("grid_w", ["grid_w"]),
    ("battery_soc", ["soc", "battery_soc", "ess_soc"]),
    ("pv_en_kwh", ["pv_en"]),
    ("site_load_en_kwh", ["site_load_en"]),
    ("net_en_kwh", ["net_en"]) ]

/-- Unwrap step of `_normalize_payload`: if the record nests a dict under
`params`, use it; else if under `power`, use that; else the record itself. -/
def unwrapPayload (dfields : Dict) : Dict :=
  match Dict.get dfields "params" with
  | some (.obj p) => p
  | _ =>
      match Dict.get dfields "power" with
      | some (.obj p) => p
      | _ => dfields

/-- First alias of a candidate list present in the payload
(`if k in payload: ...; break`). -/
def firstPresent (payload : Dict) : List String → Option JVal
  | [] => none
  | k :: rest =>
      match Dict.get payload k with
      | some v => some v
      | none => firstPresent payload rest

/-- Alias-mapping step of `_normalize_payload`: for each normalized key take
the first present candidate alias. -/
def mapFields (payload : Dict) : Dict :=
  FIELD_MAP.foldl
    (fun res p =>
      match firstPresent payload p.2 with
      | some v => Dict.insert res p.1 v
      | none => res)
    []

/-- `kw_to_w`: `float(v) * 1000.0`, `None` when the conversion raises. -/
def kw_to_w (v : JVal) : Option ℚ := (tryFloat v).map (fun q => q * 1000)

/-- One W-derivation block of `_normalize_payload`: when the kW key is present
and the W key absent, assign `kw_to_w`; when that conversion fails the Python
code assigns `result.get(wKey)`, which is `None` because the W key is absent,
so the W key is bound to `None`. -/
def deriveW (result : Dict) (kwKey wKey : String) : Dict :=
  match Dict.get result kwKey with
  | none => result
  | some v =>
      if (Dict.get result wKey).isSome then result
      else
        match kw_to_w v with
        | some w => Dict.insert result wKey (.num w)
        | none => Dict.insert result wKey .null

/-- Net-reconciliation step of `_normalize_payload`:
in `house_usage` mode, when both `pv_kw` and `load_kw` are present, overwrite
`net_kw` with `float(load_kw) - float(pv_kw)`; in `grid_import` mode, when
`net_kw` is absent and `load_kw` present, set `net_kw = float(load_kw)`.
A failing `float(...)` raises into the surrounding `except: pass`, leaving
the result unchanged. -/
def applyConsumptionMode (cmode : String) (result : Dict) : Dict :=
  if cmode = "house_usage" then
    match Dict.get result "pv_kw", Dict.get result "load_kw" with
    | some pv, some ld =>
        match tryFloat ld, tryFloat pv with
        | some l, some p => Dict.insert result "net_kw" (.num (l - p))
        | _, _ => result
    | _, _ => result
  else if cmode = "grid_import" then
    match Dict.get result "net_kw" with
    | some _ => result
    | none =>
        match Dict.get result "load_kw" with
        | some ld =>
            match tryFloat ld with
            | some l => Dict.insert result "net_kw" (.num l)
            | none => result
        | none => result
  else result

/-- Final coercion loop of `_normalize_payload` on one value: values already
numeric (ints, floats, bools) are kept; otherwise `float(v)` replaces the
value on success, and on failure the `except: pass` keeps the value as is. -/
def coerceVal (v : JVal) : JVal :=
  if jIsNum v then v
  else
    match tryFloat v with
    | some q => .num q
    | none => v

/-- Final coercion loop of `_normalize_payload` over the whole result. -/
def coerceEntries (d : Dict) : Dict := d.map (fun kv => (kv.1, coerceVal kv.2))

/-- All of `_normalize_payload` before the final numeric coercion loop. -/
def preCoerce (cmode : String) (data : JVal) : Dict :=
  match data with
  | .obj dfields =>
      applyConsumptionMode cmode
        (deriveW
          (deriveW
            (deriveW (mapFields (unwrapPayload dfields)) "pv_kw" "solar_w")
            "load_kw" "load_w")
          "net_kw" "net_w")
  | _ => []

/-- `SunPowerWSHub._normalize_payload`, with the consumption measure as an
explicit argument (`self.consumption_measure`).  Non-dict input yields `{}`. -/
def _normalize_payload (cmode : String) (data : JVal) : Dict :=
  coerceEntries (preCoerce cmode data)

/-! ## Inverter-list parser (`_parse_devicelist`, `_extract_inverter_metrics`) -/

/-- Does a lowercased key name select the lifetime-energy scan
(`("lifetime" in kl) and ("energy" in kl or "ac" in kl)`)? -/
def lifetimeKeyMatches (k : String) : Bool :=
  let kl := lowerStr k
  containsSub kl "lifetime" && (containsSub kl "energy" || containsSub kl "ac")

/-- Unit scaling applied by `scan_for_lifetime` to a parsed value. -/
def scaleLifetime (k : String) (val : ℚ) : ℚ :=
  let kl := lowerStr k
  if containsSub kl "wh" && decide (val > 1000) then val / 1000
  else if containsSub kl "kwh" then val
  else if decide (val > 5000) then val / 1000 else val

mutual

/-- `scan_for_lifetime` on one dict entry: dict values are recursed into,
any other value is matched against the key heuristic; a failing `float(v)`
hits `continue`, leaving the accumulator untouched. -/
def scan_item (k : String) (v : JVal) (acc : Option ℚ) : Option ℚ :=
  match v with
  | .obj sub => scan_for_lifetime sub acc
  | v =>
      if lifetimeKeyMatches k then
        match tryFloat v with
        | none => acc
        | some val => some (scaleLifetime k val)
      else acc

/-- The recursive `scan_for_lifetime` closure of `_extract_inverter_metrics`,
with the `nonlocal lifetime_kwh` cell threaded as the accumulator. -/
def scan_for_lifetime (fields : List (String × JVal)) (acc : Option ℚ) : Option ℚ :=
  match fields with
  | [] => acc
  | (k, v) :: rest => scan_for_lifetime rest (scan_item k v acc)

end

mutual

/-- Every value `scan_item` would store, in visit order. -/
def scans_item (k : String) (v : JVal) : List ℚ :=
  match v with
  | .obj sub => scans_fields sub
  | v =>
      if lifetimeKeyMatches k then
        match tryFloat v with
        | none => []
        | some val => [scaleLifetime k val]
      else []

/-- Every value `scan_for_lifetime` would store, in visit order. -/
def scans_fields : List (String × JVal) → List ℚ
  | [] => []
  | (k, v) :: rest => scans_item k v ++ scans_fields rest

end

/-- `_first_num`: first alias whose present value is an int or float
(booleans included, as in Python). -/
def jnumVal : JVal → Option ℚ
  | .num q => some q
  | .bool b => some (if b then 1 else 0)
  | _ => none

/-- `_first_num(dct, keys)`. -/
def _first_num (d : Dict) : List String → Option ℚ
  | [] => none
  | k :: rest =>
      match Dict.get d k with
      | some v =>
          match jnumVal v with
          | some q => some q
          | none => _first_num d rest
      | none => _first_num d rest

/-- Python `a or b or ... or dflt` over `dev.get` results: the first present
truthy value, else the default. -/
def firstTruthyD (d : Dict) (keys : List String) (dflt : JVal) : JVal :=
  match keys with
  | [] => dflt
  | k :: rest =>
      match Dict.get d k with
      | some v => if pyTruthy v then v else firstTruthyD d rest dflt
      | none => firstTruthyD d rest dflt

/-- The normalized per-device record built by `_extract_inverter_metrics`. -/
structure InverterMetrics where
  id : String
  name : String
  lifetime_kwh : Option ℚ
  ac_w : Option ℚ
  dc_v : Option ℚ
  dc_a : Option ℚ
  temp_c : Option ℚ
deriving DecidableEq

/-- `SunPowerWSHub._extract_inverter_metrics`. -/
def _extract_inverter_metrics (dev : JVal) : Option InverterMetrics :=
  match dev with
  | .obj fields =>
      let name := pyStr (firstTruthyD fields ["name", "DeviceName", "model", "Model"] (.str "device"))
      let dtype := lowerStr (pyStr (firstTruthyD fields ["type", "DeviceType"] (.str "")))
      let serial := pyStr (firstTruthyD fields ["serial", "SerialNumber", "id", "DeviceID"] (.str name))
      let looks_inverter :=
        containsSub dtype "invert" || containsSub (lowerStr name) "invert" ||
          containsSub (lowerStr name) "micro"
      let lifetime_kwh := scan_for_lifetime fields none
      let ac_w := _first_num fields ["ac_w", "ac_power", "acwatts", "ac_watts", "acp"]
      let dc_v := _first_num fields ["dc_v", "dc_voltage", "dcv"]
      let dc_a := _first_num fields ["dc_a", "dc_current", "dca"]
      let temp_c := _first_num fields ["temp_c", "temperature_c", "temperature"]
      if lifetime_kwh.isNone && !looks_inverter then none
      else
        some
          { id := if serial = "" then name else serial
            name := name
            lifetime_kwh := lifetime_kwh
            ac_w := ac_w
            dc_v := dc_v
            dc_a := dc_a
            temp_c := temp_c }
  | _ => none

/-- The snapshot returned by `_parse_devicelist`. -/
structure DeviceListSnapshot where
  site_lifetime_kwh : Option ℚ
  inverters : List InverterMetrics
deriving DecidableEq

/-- Locating the device array: top-level `devices` list, else
`DeviceList.devices`, else empty. -/
def locateDevices (data : JVal) : List JVal :=
  match data with
  | .obj fields =>
      match Dict.get fields "devices" with
      | some (.arr l) => l
      | _ =>
          match Dict.get fields "DeviceList" with
          | some (.obj dl) =>
              match Dict.get dl "devices" with
              | some (.arr l) => l
              | _ => []
          | _ => []
  | _ => []

/-- The per-device accumulation step of `_parse_devicelist`:
`(total_kwh, any_kwh, inverters)`. -/
def dlStep (acc : ℚ × Bool × List InverterMetrics) (d : JVal) : ℚ × Bool × List InverterMetrics :=
  match _extract_inverter_metrics d with
  | none => acc
  | some inv =>
      match inv.lifetime_kwh with
      | some v => (acc.1 + v, true, acc.2.2 ++ [inv])
      | none => (acc.1, acc.2.1, acc.2.2 ++ [inv])

/-- `SunPowerWSHub._parse_devicelist`. -/
def _parse_devicelist (data : JVal) : DeviceListSnapshot :=
  let acc := (locateDevices data).foldl dlStep (0, false, [])
  { site_lifetime_kwh := if acc.2.1 then some acc.1 else none
    inverters := acc.2.2 }

/-! ## Energy integrator (`IntegratingEnergySensor`, `GridSplitEnergySensor`) -/

/-- The accumulator state of one `IntegratingEnergySensor`:
`_attr_native_value` (always a float once the entity is added),
`_last_ts` and `_last_kw`. -/
structure IntegratorState where
  total : ℚ
  last_ts : Option ℚ
  last_kw : Option ℚ
deriving DecidableEq

/-- One numeric WS sample processed by `IntegratingEnergySensor._listener`:
trapezoidal delta when a previous sample exists and `dt > 0`, accumulated
only when positive; the last-sample fields always advance.  (Python's
`self._attr_native_value or 0.0` equals the stored float numerically.) -/
def integrator_step (s : IntegratorState) (now p : ℚ) : IntegratorState :=
  let total :=
    match s.last_ts, s.last_kw with
    | some lt, some lk =>
        let dt := now - lt
        if dt > 0 then
          let kwh := (lk + p) / 2 * (dt / 3600)
          if kwh > 0 then s.total + kwh else s.total
        else s.total
    | _, _ => s.total
  { total := total, last_ts := some now, last_kw := some p }

/-- The two `GridSplitEnergySensor` modes. -/
inductive GridMode where
  | imp
  | exp
deriving DecidableEq

/-- The clamping applied by `GridSplitEnergySensor._listener` to `net_kw`:
`max(val, 0.0)` for import, `max(-val, 0.0)` for export. -/
def grid_clamp : GridMode → ℚ → ℚ
  | .imp, p => max p 0
  | .exp, p => max (-p) 0

/-- One numeric WS sample processed by `GridSplitEnergySensor._listener`:
clamp the signed net power, then integrate exactly as the base class does
(the clamped value is also what is stored in `_last_kw`). -/
def grid_split_step (mode : GridMode) (s : IntegratorState) (now p : ℚ) : IntegratorState :=
  integrator_step s now (grid_clamp mode p)

/-- A sample stream folded through `IntegratingEnergySensor._listener`. -/
def runIntegrator (s : IntegratorState) (samples : List (ℚ × ℚ)) : IntegratorState :=
  samples.foldl (fun st x => integrator_step st x.1 x.2) s

/-- A sample stream folded through `GridSplitEnergySensor._listener`. -/
def runGridSplit (mode : GridMode) (s : IntegratorState) (samples : List (ℚ × ℚ)) : IntegratorState :=
  samples.foldl (fun st x => grid_split_step mode st x.1 x.2) s

/-! ## WebSocket reconnect backoff (`SunPowerWSHub._runner`) -/

/-- The backoff value slept at the end of one `_runner` cycle: on a cycle
whose connection attempt succeeded, `backoff` was reset to 1 before the
sleep; otherwise it still holds the value from cycle entry. -/
def sleptBackoff (b : Nat) (connected : Bool) : Nat :=
  if connected then 1 else b

/-- The backoff carried into the next cycle:
`backoff = min(backoff * 2, 30)` after the sleep. -/
def nextBackoff (b : Nat) (connected : Bool) : Nat :=
  min (sleptBackoff b connected * 2) 30

/-- The sequence of slept backoff delays of a `_runner` execution, one entry
per cycle, driven by whether each cycle's connection attempt succeeded. -/
def backoffTrace : Nat → List Bool → List Nat
  | _, [] => []
  | b, s :: rest => sleptBackoff b s :: backoffTrace (nextBackoff b s) rest

/-! ## Hub lifecycle (`async_start` / `async_stop`) -/

/-- The lifecycle-relevant state of a `SunPowerWSHub`: whether each
`Optional` handle is set (`_task`, `_poll_task`, `_session`, `_ws`), plus the
`_stopped` event and `_connected` flag. -/
structure HubState where
  task : Bool
  poll_task : Bool
  stopped : Bool
  session : Bool
  ws : Bool
  connected : Bool
deriving DecidableEq

/-- The outcome of `async_start`: the new state plus whether a WebSocket
runner task and a DeviceList poller task were created by this call. -/
structure StartResult where
  state : HubState
  started_runner : Bool
  started_poller : Bool
deriving DecidableEq

/-- `SunPowerWSHub.async_start`: a no-op when `self._task` is already set;
otherwise clear `_stopped`, ensure a session, create the runner task and,
when the DeviceList scan is enabled, the poller task. -/
def async_start (enable_devicelist_scan : Bool) (s : HubState) : StartResult :=
  if s.task then ⟨s, false, false⟩
  else
    let s1 : HubState := { s with stopped := false }
    let s2 : HubState := if s1.session then s1 else { s1 with session := true }
    let s3 : HubState := { s2 with task := true }
    if enable_devicelist_scan then ⟨{ s3 with poll_task := true }, true, true⟩
    else ⟨s3, true, false⟩

/-- `SunPowerWSHub.async_stop`: set `_stopped`, close and clear the WebSocket
and the session, cancel the tasks (leaving `self._task` / `self._poll_task`
assigned), and clear `_connected`. -/
def async_stop (s : HubState) : HubState :=
  { s with stopped := true, ws := false, session := false, connected := false }

/-! ## Dictionary lemmas -/

theorem Dict.get_insert_self (d : Dict) (k : String) (v : JVal) :
    Dict.get (Dict.insert d k v) k = some v := by
  induction d with
  | nil => simp [Dict.insert, Dict.get]
  | cons kv rest ih =>
      by_cases h : kv.1 = k
      · simp [Dict.insert, Dict.get, h]
      · simp [Dict.insert, Dict.get, h, ih]

theorem Dict.get_insert_ne (d : Dict) (k0 k : String) (v : JVal) (h : k0 ≠ k) :
    Dict.get (Dict.insert d k0 v) k = Dict.get d k := by
  induction d with
  | nil => simp [Dict.insert, Dict.get, h]
  | cons kv rest ih =>
      by_cases h1 : kv.1 = k0
      · simp [Dict.insert, Dict.get, h1, h]
      · simp only [Dict.insert, if_neg h1, Dict.get]
        by_cases h2 : kv.1 = k
        · simp [h2]
        · simp [h2, ih]

theorem coerce_get (d : Dict) (k : String) :
    Dict.get (coerceEntries d) k = (Dict.get d k).map coerceVal := by
  induction d with
  | nil => simp [coerceEntries, Dict.get]
  | cons kv rest ih =>
      by_cases h : kv.1 = k
      · simp [coerceEntries, Dict.get, h]
      · simpa [coerceEntries, Dict.get, h] using ih

theorem deriveW_get_ne (r : Dict) (kwKey wKey k : String) (h : k ≠ wKey) :
    Dict.get (deriveW r kwKey wKey) k = Dict.get r k := by
  unfold deriveW
  cases hkw : Dict.get r kwKey with
  | none => rfl
  | some v =>
      by_cases hw : (Dict.get r wKey).isSome
      · simp [hw]
      · simp only [hw, if_false, Bool.false_eq_true]
        cases hk : kw_to_w v <;>
          simp [Dict.get_insert_ne _ _ _ _ (Ne.symm h)]

theorem deriveW_derives (r : Dict) (kwKey wKey : String) (v : JVal) (q : ℚ)
    (hkw : Dict.get r kwKey = some v) (hw : Dict.get r wKey = none)
    (hq : tryFloat v = some q) :
    Dict.get (deriveW r kwKey wKey) wKey = some (JVal.num (q * 1000)) := by
  unfold deriveW
  rw [hkw, hw]
  simp only [Option.isSome_none, Bool.false_eq_true, if_false]
  have hkq : kw_to_w v = some (q * 1000) := by simp [kw_to_w, hq]
  rw [hkq]
  exact Dict.get_insert_self _ _ _

theorem deriveW_keeps (r : Dict) (kwKey wKey : String) (wv : JVal)
    (hw : Dict.get r wKey = some wv) :
    deriveW r kwKey wKey = r := by
  unfold deriveW
  cases hkw : Dict.get r kwKey with
  | none => rfl
  | some v => simp [hw]

theorem applyMode_get_ne (cmode : String) (r : Dict) (k : String) (h : k ≠ "net_kw") :
    Dict.get (applyConsumptionMode cmode r) k = Dict.get r k := by
  unfold applyConsumptionMode
  repeat' split
  all_goals first
    | rfl
    | exact Dict.get_insert_ne _ _ _ _ (Ne.symm h)

theorem applyMode_house (r : Dict) (vp vl : JVal) (p l : ℚ)
    (hp : Dict.get r "pv_kw" = some vp) (hl : Dict.get r "load_kw" = some vl)
    (hfp : tryFloat vp = some p) (hfl : tryFloat vl = some l) :
    applyConsumptionMode "house_usage" r = Dict.insert r "net_kw" (JVal.num (l - p)) := by
  unfold applyConsumptionMode
  rw [if_pos rfl, hp, hl]
  simp only [hfl, hfp]

/-! ## C1: house_usage always derives net from load and PV -/

/-- C1: for every raw stream record whose unwrapped, alias-mapped fields
contain both `pv_kw` and `load_kw` (with float-convertible values `p` and
`l`), normalization in `house_usage` mode outputs `net_kw = l - p`,
regardless of any device-reported `net_p`/`grid_p`/`net_kw` in the input. -/
theorem C1_house_usage_net_override (dfields : Dict) (vp vl : JVal) (p l : ℚ)
    (hp : Dict.get (mapFields (unwrapPayload dfields)) "pv_kw" = some vp)
    (hl : Dict.get (mapFields (unwrapPayload dfields)) "load_kw" = some vl)
    (hfp : tryFloat vp = some p) (hfl : tryFloat vl = some l) :
    Dict.get (_normalize_payload "house_usage" (JVal.obj dfields)) "net_kw"
      = some (JVal.num (l - p)) := by
  have h3p : Dict.get (deriveW (deriveW (deriveW (mapFields (unwrapPayload dfields))
      "pv_kw" "solar_w") "load_kw" "load_w") "net_kw" "net_w") "pv_kw" = some vp := by
    rw [deriveW_get_ne _ _ _ _ (by decide), deriveW_get_ne _ _ _ _ (by decide),
      deriveW_get_ne _ _ _ _ (by decide)]
    exact hp
  have h3l : Dict.get (deriveW (deriveW (deriveW (mapFields (unwrapPayload dfields))
      "pv_kw" "solar_w") "load_kw" "load_w") "net_kw" "net_w") "load_kw" = some vl := by
    rw [deriveW_get_ne _ _ _ _ (by decide), deriveW_get_ne _ _ _ _ (by decide),
      deriveW_get_ne _ _ _ _ (by decide)]
    exact hl
  show Dict.get (coerceEntries (preCoerce "house_usage" (JVal.obj dfields))) "net_kw" = _
  rw [coerce_get]
  show (Dict.get (applyConsumptionMode "house_usage" _) "net_kw").map coerceVal = _
  rw [applyMode_house _ _ _ _ _ h3p h3l hfp hfl, Dict.get_insert_self]
  rfl

/-- Witness for C1: the spec scenario `{"params": {"solar_p": 2.5,
"load_p": 1.0}}` yields `net_kw = 1 - 2.5` (i.e. `-1.5`). -/
theorem C1_house_usage_net_override_witness :
    Dict.get (_normalize_payload "house_usage"
        (JVal.obj [("params", JVal.obj [("solar_p", JVal.num 2.5), ("load_p", JVal.num 1)])]))
      "net_kw" = some (JVal.num ((1 : ℚ) - 2.5)) :=
  C1_house_usage_net_override
    [("params", JVal.obj [("solar_p", JVal.num 2.5), ("load_p", JVal.num 1)])]
    (JVal.num 2.5) (JVal.num 1) 2.5 1 rfl rfl rfl rfl

/-! ## C3: W derivation from kW, never overwriting an explicit W value -/

/-- C3: for each kW/W pair of `_normalize_payload`, if after unwrapping and
alias mapping the kW key is present with a float-convertible value `q` and
the legacy W key is absent, the output binds the W key to `q * 1000`; and if
the W key is present after mapping, its value reaches the output through the
numeric-coercion loop only, never replaced by a derived value.  This holds in
every consumption mode. -/
theorem C3_w_derivation (dfields : Dict) (cmode kwKey wKey : String) (v : JVal) (q : ℚ)
    (hpair : (kwKey, wKey) ∈
      [("pv_kw", "solar_w"), ("load_kw", "load_w"), ("net_kw", "net_w")]) :
    (Dict.get (mapFields (unwrapPayload dfields)) kwKey = some v →
      tryFloat v = some q →
      Dict.get (mapFields (unwrapPayload dfields)) wKey = none →
      Dict.get (_normalize_payload cmode (JVal.obj dfields)) wKey
        = some (JVal.num (q * 1000)))
    ∧ (∀ wv, Dict.get (mapFields (unwrapPayload dfields)) wKey = some wv →
      Dict.get (_normalize_payload cmode (JVal.obj dfields)) wKey
        = some (coerceVal wv)) := by
  have hout : ∀ d : Dict,
      Dict.get (_normalize_payload cmode (JVal.obj dfields)) wKey
        = (Dict.get (applyConsumptionMode cmode
            (deriveW (deriveW (deriveW (mapFields (unwrapPayload dfields))
              "pv_kw" "solar_w") "load_kw" "load_w") "net_kw" "net_w")) wKey).map
            coerceVal := by
    intro _
    show Dict.get (coerceEntries (preCoerce cmode (JVal.obj dfields))) wKey = _
    rw [coerce_get]
    rfl
  simp only [List.mem_cons, List.not_mem_nil, or_false] at hpair
  rcases hpair with h | h | h <;>
    (rw [Prod.mk.injEq] at h; obtain ⟨h1, h2⟩ := h; subst h1; subst h2)
  -- pv_kw / solar_w
  · constructor
    · intro hkw hq hw
      rw [hout []]
      rw [applyMode_get_ne _ _ _ (by decide),
        deriveW_get_ne _ _ _ _ (by decide), deriveW_get_ne _ _ _ _ (by decide),
        deriveW_derives _ _ _ _ _ hkw hw hq]
      rfl
    · intro wv hw
      rw [hout []]
      rw [applyMode_get_ne _ _ _ (by decide),
        deriveW_get_ne _ _ _ _ (by decide), deriveW_get_ne _ _ _ _ (by decide)]
      rw [deriveW_keeps _ _ _ _ hw, hw]
      rfl
  -- load_kw / load_w
  · constructor
    · intro hkw hq hw
      have hkw1 : Dict.get (deriveW (mapFields (unwrapPayload dfields))
          "pv_kw" "solar_w") "load_kw" = some v := by
        rw [deriveW_get_ne _ _ _ _ (by decide)]; exact hkw
      have hw1 : Dict.get (deriveW (mapFields (unwrapPayload dfields))
          "pv_kw" "solar_w") "load_w" = none := by
        rw [deriveW_get_ne _ _ _ _ (by decide)]; exact hw
      rw [hout []]
      rw [applyMode_get_ne _ _ _ (by decide), deriveW_get_ne _ _ _ _ (by decide),
        deriveW_derives _ _ _ _ _ hkw1 hw1 hq]
      rfl
    · intro wv hw
      have hw1 : Dict.get (deriveW (mapFields (unwrapPayload dfields))
          "pv_kw" "solar_w") "load_w" = some wv := by
        rw [deriveW_get_ne _ _ _ _ (by decide)]; exact hw
      rw [hout []]
      rw [applyMode_get_ne _ _ _ (by decide), deriveW_get_ne _ _ _ _ (by decide)]
      rw [deriveW_keeps _ _ _ _ hw1, hw1]
      rfl
  -- net_kw / net_w
  · constructor
    · intro hkw hq hw
      have hkw2 : Dict.get (deriveW (deriveW (mapFields (unwrapPayload dfields))
          "pv_kw" "solar_w") "load_kw" "load_w") "net_kw" = some v := by
        rw [deriveW_get_ne _ _ _ _ (by decide), deriveW_get_ne _ _ _ _ (by decide)]
        exact hkw
      have hw2 : Dict.get (deriveW (deriveW (mapFields (unwrapPayload dfields))
          "pv_kw" "solar_w") "load_kw" "load_w") "net_w" = none := by
        rw [deriveW_get_ne _ _ _ _ (by decide), deriveW_get_ne _ _ _ _ (by decide)]
        exact hw
      rw [hout []]
      rw [applyMode_get_ne _ _ _ (by decide),
        deriveW_derives _ _ _ _ _ hkw2 hw2 hq]
      rfl
    · intro wv hw
      have hw2 : Dict.get (deriveW (deriveW (mapFields (unwrapPayload dfields))
          "pv_kw" "solar_w") "load_kw" "load_w") "net_w" = some wv := by
        rw [deriveW_get_ne _ _ _ _ (by decide), deriveW_get_ne _ _ _ _ (by decide)]
        exact hw
      rw [hout []]
      rw [applyMode_get_ne _ _ _ (by decide)]
      rw [deriveW_keeps _ _ _ _ hw2, hw2]
      rfl

/-- Witness for C3: the record `{"pv_p": 2}` (kW present, W absent) derives
`solar_w = 2 * 1000`, in `house_usage` mode. -/
theorem C3_w_derivation_witness :
    Dict.get (_normalize_payload "house_usage" (JVal.obj [("pv_p", JVal.num 2)])) "solar_w"
      = some (JVal.num ((2 : ℚ) * 1000)) :=
  (C3_w_derivation [("pv_p", JVal.num 2)] "house_usage" "pv_kw" "solar_w"
      (JVal.num 2) 2 (by decide)).1 rfl rfl rfl

/-! ## C2: non-numeric values are kept, not dropped -/

/-- Counterexample for C2: the claim that every key present in the normalized
result maps to a numeric value is false — the record `{"soc": "abc"}`
normalizes with `battery_soc` still bound to the string `"abc"`, because the
final coercion loop's `except: pass` keeps (rather than removes) a value that
fails float conversion. -/
theorem C2_all_numeric_cex :
    ¬ (∀ (cmode : String) (data : JVal) (k : String) (v : JVal),
        Dict.get (_normalize_payload cmode data) k = some v → jIsNum v = true) := by
  intro h
  have hc := h "house_usage" (JVal.obj [("soc", JVal.str "abc")]) "battery_soc"
    (JVal.str "abc") rfl
  exact absurd hc (by decide)

/-- C2 (amended): every non-numeric value present in the normalized result is
one that fails float conversion, and it is kept with exactly the value it had
before the coercion loop — neither dropped nor defaulted to zero. -/
theorem C2_nonnumeric_kept (cmode : String) (data : JVal) (k : String) (v : JVal)
    (hv : Dict.get (_normalize_payload cmode data) k = some v)
    (hnum : jIsNum v = false) :
    tryFloat v = none ∧ Dict.get (preCoerce cmode data) k = some v := by
  unfold _normalize_payload at hv
  rw [coerce_get] at hv
  cases hw : Dict.get (preCoerce cmode data) k with
  | none => rw [hw] at hv; cases hv
  | some w =>
      rw [hw] at hv
      have hv : coerceVal w = v := Option.some.inj hv
      by_cases hwn : jIsNum w = true
      · rw [show coerceVal w = w from by simp [coerceVal, hwn]] at hv
        rw [hv] at hwn
        rw [hwn] at hnum
        cases hnum
      · cases hq : tryFloat w with
        | some q =>
            rw [show coerceVal w = JVal.num q from by
              simp [coerceVal, hwn, hq]] at hv
            rw [← hv] at hnum
            cases hnum
        | none =>
            rw [show coerceVal w = w from by simp [coerceVal, hwn, hq]] at hv
            subst hv
            exact ⟨hq, rfl⟩

/-- Witness for C2 (amended): in the `{"soc": "abc"}` record the kept value
`"abc"` fails float conversion and equals the pre-coercion binding. -/
theorem C2_nonnumeric_kept_witness :
    tryFloat (JVal.str "abc") = none ∧
      Dict.get (preCoerce "house_usage" (JVal.obj [("soc", JVal.str "abc")])) "battery_soc"
        = some (JVal.str "abc") :=
  C2_nonnumeric_kept "house_usage" (JVal.obj [("soc", JVal.str "abc")]) "battery_soc"
    (JVal.str "abc") rfl rfl

/-! ## C4: site lifetime aggregation -/

theorem dlFold_inv (devs : List JVal) (t : ℚ) (a : Bool) (invs : List InverterMetrics)
    (h1 : t = (invs.filterMap InverterMetrics.lifetime_kwh).sum)
    (h2 : a = true ↔ invs.filterMap InverterMetrics.lifetime_kwh ≠ []) :
    (devs.foldl dlStep (t, a, invs)).1
        = (((devs.foldl dlStep (t, a, invs)).2.2).filterMap InverterMetrics.lifetime_kwh).sum
    ∧ ((devs.foldl dlStep (t, a, invs)).2.1 = true ↔
        ((devs.foldl dlStep (t, a, invs)).2.2).filterMap InverterMetrics.lifetime_kwh ≠ []) := by
  induction devs generalizing t a invs with
  | nil => exact ⟨h1, h2⟩
  | cons d rest ih =>
      simp only [List.foldl_cons]
      rcases hd : _extract_inverter_metrics d with _ | inv
      · rw [show dlStep (t, a, invs) d = (t, a, invs) from by simp [dlStep, hd]]
        exact ih t a invs h1 h2
      · rcases hl : inv.lifetime_kwh with _ | val
        · rw [show dlStep (t, a, invs) d = (t, a, invs ++ [inv]) from by
            simp [dlStep, hd, hl]]
          apply ih
          · rw [List.filterMap_append]
            simp [hl, h1]
          · rw [List.filterMap_append]
            simpa [hl] using h2
        · rw [show dlStep (t, a, invs) d = (t + val, true, invs ++ [inv]) from by
            simp [dlStep, hd, hl]]
          apply ih
          · rw [List.filterMap_append]
            simp [hl, h1]
          · rw [List.filterMap_append]
            simp [hl]

/-- C4: the parsed snapshot's `site_lifetime_kwh` is `None` exactly when no
returned inverter record carries a non-null `lifetime_kwh`; otherwise it is
the sum of the non-null `lifetime_kwh` values over all returned records. -/
theorem C4_site_lifetime_aggregation (data : JVal) :
    ((_parse_devicelist data).site_lifetime_kwh = none ↔
      ∀ i ∈ (_parse_devicelist data).inverters, i.lifetime_kwh = none)
    ∧ (∀ s, (_parse_devicelist data).site_lifetime_kwh = some s →
        s = (((_parse_devicelist data).inverters).filterMap
              InverterMetrics.lifetime_kwh).sum) := by
  obtain ⟨hsum, hflag⟩ :=
    dlFold_inv (locateDevices data) 0 false [] (by simp) (by simp)
  unfold _parse_devicelist
  constructor
  · by_cases hb : ((locateDevices data).foldl dlStep (0, false, [])).2.1 = true
    · simp only [hb, if_true]
      rw [hflag] at hb
      constructor
      · intro hcontra; cases hcontra
      · intro hall
        exact absurd (List.filterMap_eq_nil_iff.mpr hall) hb
    · simp only [Bool.not_eq_true] at hb
      simp only [hb, Bool.false_eq_true, if_false]
      rw [hb] at hflag
      have hnil : ((locateDevices data).foldl dlStep (0, false, [])).2.2.filterMap
          InverterMetrics.lifetime_kwh = [] := by
        by_contra hne
        exact absurd (hflag.mpr hne) (by decide)
      simp only [true_iff]
      exact List.filterMap_eq_nil_iff.mp hnil
  · intro s hs
    by_cases hb : ((locateDevices data).foldl dlStep (0, false, [])).2.1 = true
    · simp only [hb, if_true, Option.some.injEq] at hs
      rw [← hs]
      exact hsum
    · simp only [Bool.not_eq_true] at hb
      simp only [hb, Bool.false_eq_true, if_false] at hs
      cases hs

/-- The spec's device-list scenario input. -/
def sampleDeviceList : JVal :=
  JVal.obj [("devices", JVal.arr
    [JVal.obj [("name", JVal.str "Inverter1"), ("type", JVal.str "inverter"),
      ("ac_lifetime_wh", JVal.num 500000)]])]

/-- Witness for C4: on the spec's scenario device list the snapshot reports
`site_lifetime_kwh = 500`, matching the sum over the single inverter. -/
theorem C4_site_lifetime_aggregation_witness :
    (500 : ℚ) = (((_parse_devicelist sampleDeviceList).inverters).filterMap
        InverterMetrics.lifetime_kwh).sum :=
  (C4_site_lifetime_aggregation sampleDeviceList).2 500 (by with_unfolding_all rfl)

/-! ## C5: lifetime key scan and unit scaling -/

/-- Last element of a list if any, else a default: the value of a
last-wins assignment sequence. -/
def lastOr (xs : List ℚ) (acc : Option ℚ) : Option ℚ :=
  xs.foldl (fun _ x => some x) acc

theorem lastOr_append (xs ys : List ℚ) (acc : Option ℚ) :
    lastOr (xs ++ ys) acc = lastOr ys (lastOr xs acc) := by
  simp [lastOr, List.foldl_append]

theorem step_lastwins (b : Bool) (t : Option ℚ) (f : ℚ → ℚ) (acc : Option ℚ) :
    (if b then (match t with | none => acc | some val => some (f val)) else acc)
      = lastOr (if b then (match t with | none => [] | some val => [f val]) else []) acc := by
  cases b <;> cases t <;> simp [lastOr]

mutual

theorem scan_item_lastwins : ∀ (k : String) (v : JVal) (acc : Option ℚ),
    scan_item k v acc = lastOr (scans_item k v) acc
  | _, .obj sub, acc => scan_fields_lastwins sub acc
  | k, .num q, acc => step_lastwins (lifetimeKeyMatches k) (tryFloat (.num q)) (scaleLifetime k) acc
  | k, .str s, acc => step_lastwins (lifetimeKeyMatches k) (tryFloat (.str s)) (scaleLifetime k) acc
  | k, .bool b, acc => step_lastwins (lifetimeKeyMatches k) (tryFloat (.bool b)) (scaleLifetime k) acc
  | k, .null, acc => step_lastwins (lifetimeKeyMatches k) (tryFloat .null) (scaleLifetime k) acc
  | k, .arr l, acc => step_lastwins (lifetimeKeyMatches k) (tryFloat (.arr l)) (scaleLifetime k) acc

theorem scan_fields_lastwins : ∀ (fields : List (String × JVal)) (acc : Option ℚ),
    scan_for_lifetime fields acc = lastOr (scans_fields fields) acc
  | [], _ => rfl
  | (k, v) :: rest, acc => by
      show scan_for_lifetime rest (scan_item k v acc)
        = lastOr (scans_item k v ++ scans_fields rest) acc
      rw [lastOr_append, scan_fields_lastwins rest, scan_item_lastwins k v acc]

end

theorem scans_fields_append (l1 l2 : List (String × JVal)) :
    scans_fields (l1 ++ l2) = scans_fields l1 ++ scans_fields l2 := by
  induction l1 with
  | nil => rfl
  | cons kv rest ih =>
      cases kv with
      | mk k v =>
          show scans_item k v ++ scans_fields (rest ++ l2) = _
          rw [ih]
          simp [scans_fields, List.append_assoc]

/-- C5: a device record with exactly one (possibly nested) matching-and-
parseable lifetime key yields exactly the claim's unit scaling, and the
spec's scenario record parses to `lifetime_kwh = 500` with
`site_lifetime_kwh = 500`. -/
theorem C5_lifetime_key_scaling (pre post : List (String × JVal)) (k : String)
    (v : JVal) (val : ℚ)
    (hpre : scans_fields pre = []) (hpost : scans_fields post = [])
    (hmatch : lifetimeKeyMatches k = true)
    (hparse : tryFloat v = some val)
    (hobj : ∀ sub, v ≠ JVal.obj sub) :
    Option.map InverterMetrics.lifetime_kwh
        (_extract_inverter_metrics (JVal.obj (pre ++ (k, v) :: post)))
      = some (some (scaleLifetime k val))
    ∧ scaleLifetime k val
        = (if containsSub (lowerStr k) "wh" = true ∧ val > 1000 then val / 1000
           else if containsSub (lowerStr k) "kwh" = true then val
           else if val > 5000 then val / 1000 else val)
    ∧ _parse_devicelist sampleDeviceList
        = ⟨some 500, [⟨"Inverter1", "Inverter1", some 500, none, none, none, none⟩]⟩ := by
  have hitem : scans_item k v = [scaleLifetime k val] := by
    cases v with
    | obj sub => exact absurd rfl (hobj sub)
    | num q => simp [scans_item, hmatch, hparse]
    | str s => simp [scans_item, hmatch, hparse]
    | bool b => simp [scans_item, hmatch, hparse]
    | null => simp [scans_item, hmatch, hparse]
    | arr l => simp [scans_item, hmatch, hparse]
  have hscan : scan_for_lifetime (pre ++ (k, v) :: post) none
      = some (scaleLifetime k val) := by
    rw [scan_fields_lastwins]
    rw [show pre ++ (k, v) :: post = (pre ++ [(k, v)]) ++ post from by simp]
    rw [scans_fields_append, scans_fields_append, hpre, hpost]
    rw [show scans_fields [(k, v)] = scans_item k v ++ [] from rfl, hitem]
    rfl
  refine ⟨?_, ?_, ?_⟩
  · simp only [_extract_inverter_metrics, hscan]
    rfl
  · simp [scaleLifetime, Bool.and_eq_true, decide_eq_true_eq]
  · with_unfolding_all rfl

/-- Witness for C5: the record `{"ac_lifetime_wh": 500000}` scans to
`scaleLifetime "ac_lifetime_wh" 500000`, which evaluates to `500`. -/
theorem C5_lifetime_key_scaling_witness :
    Option.map InverterMetrics.lifetime_kwh
        (_extract_inverter_metrics (JVal.obj [("ac_lifetime_wh", JVal.num 500000)]))
      = some (some (scaleLifetime "ac_lifetime_wh" 500000)) :=
  (C5_lifetime_key_scaling [] [] "ac_lifetime_wh" (JVal.num 500000) 500000
    rfl rfl (by decide) rfl (fun _ h => nomatch h)).1

/-! ## C6: trapezoidal integration values -/

/-- C6: from an accumulator with no prior sample, any single sample leaves
the cumulative total unchanged; and the two samples `(t0, 2)` then
`(t0 + 3600, 4)` add exactly `(2 + 4) / 2 * 1 = 3` kWh. -/
theorem C6_trapezoid_delta (c t0 : ℚ) :
    (∀ now p : ℚ, (integrator_step ⟨c, none, none⟩ now p).total = c)
    ∧ (integrator_step (integrator_step ⟨c, none, none⟩ t0 2) (t0 + 3600) 4).total
        = c + 3 := by
  constructor
  · intro now p
    rfl
  · show (if t0 + 3600 - t0 > 0 then
        (if (2 + 4) / 2 * ((t0 + 3600 - t0) / 3600) > (0 : ℚ) then
          c + (2 + 4) / 2 * ((t0 + 3600 - t0) / 3600) else c)
      else c) = c + 3
    rw [show t0 + 3600 - t0 = (3600 : ℚ) from by ring]
    rw [if_pos (by norm_num), if_pos (by norm_num)]
    norm_num

/-! ## C7: cumulative totals never decrease -/

theorem integrator_step_mono (s : IntegratorState) (now p : ℚ) :
    s.total ≤ (integrator_step s now p).total := by
  rcases s with ⟨t, ts, kw⟩
  cases ts with
  | none => cases kw <;> exact le_rfl
  | some lt =>
      cases kw with
      | none => exact le_rfl
      | some lk =>
          show t ≤ (if now - lt > 0 then
              (if (lk + p) / 2 * ((now - lt) / 3600) > (0 : ℚ) then
                t + (lk + p) / 2 * ((now - lt) / 3600) else t)
            else t)
          split_ifs with h1 h2
          · linarith
          · exact le_rfl
          · exact le_rfl

theorem runIntegrator_mono (samples : List (ℚ × ℚ)) (s : IntegratorState) :
    s.total ≤ (runIntegrator s samples).total := by
  induction samples generalizing s with
  | nil => exact le_rfl
  | cons x rest ih =>
      calc s.total ≤ (integrator_step s x.1 x.2).total := integrator_step_mono s x.1 x.2
        _ ≤ (runIntegrator (integrator_step s x.1 x.2) rest).total :=
            ih (integrator_step s x.1 x.2)

theorem runGridSplit_mono (mode : GridMode) (samples : List (ℚ × ℚ)) (s : IntegratorState) :
    s.total ≤ (runGridSplit mode s samples).total := by
  induction samples generalizing s with
  | nil => exact le_rfl
  | cons x rest ih =>
      calc s.total ≤ (grid_split_step mode s x.1 x.2).total :=
            integrator_step_mono s x.1 (grid_clamp mode x.2)
        _ ≤ (runGridSplit mode (grid_split_step mode s x.1 x.2) rest).total :=
            ih (grid_split_step mode s x.1 x.2)

/-- C7: for every sample sequence from any initial cumulative value, the
cumulative kWh total is monotonically non-decreasing — deltas are added only
when strictly positive — in both the plain integrating accumulator and the
clamped grid import/export variant. -/
theorem C7_total_monotone (mode : GridMode) (s : IntegratorState)
    (samples : List (ℚ × ℚ)) :
    s.total ≤ (runIntegrator s samples).total
    ∧ s.total ≤ (runGridSplit mode s samples).total :=
  ⟨runIntegrator_mono samples s, runGridSplit_mono mode samples s⟩

/-! ## C8: dt ≤ 0 skips the delta but still advances the last sample -/

/-- Counterexample for C8: the claim that a sample with `dt ≤ 0` leaves the
accumulator state unchanged is false — at state
`(total 0, last_ts 10, last_kw 2)` the sample `(now 10, p 3)` has `dt = 0`,
accumulates nothing, but still overwrites `last_kw` with `3`. -/
theorem C8_state_unchanged_cex :
    ¬ (∀ (s : IntegratorState) (now p lt : ℚ), s.last_ts = some lt →
        now - lt ≤ 0 → integrator_step s now p = s) := by
  intro h
  have hc := h ⟨0, some 10, some 2⟩ 10 3 10 rfl (by norm_num)
  have hkw : (integrator_step ⟨0, some 10, some 2⟩ 10 3).last_kw = some 3 := rfl
  rw [hc] at hkw
  exact absurd (Option.some.inj hkw) (by norm_num)

/-- C8 (amended): with a recorded prior sample and `dt ≤ 0`, no delta is
accumulated — the cumulative total is unchanged — but `last_ts`/`last_kw`
are still advanced to the current sample. -/
theorem C8_skip_advances_last (s : IntegratorState) (now p lt : ℚ)
    (hts : s.last_ts = some lt) (hdt : now - lt ≤ 0) :
    (integrator_step s now p).total = s.total
    ∧ (integrator_step s now p).last_ts = some now
    ∧ (integrator_step s now p).last_kw = some p := by
  rcases s with ⟨t, ts, kw⟩
  simp only at hts
  subst hts
  cases kw with
  | none => exact ⟨rfl, rfl, rfl⟩
  | some lk =>
      refine ⟨?_, rfl, rfl⟩
      show (if now - lt > 0 then
          (if (lk + p) / 2 * ((now - lt) / 3600) > (0 : ℚ) then
            t + (lk + p) / 2 * ((now - lt) / 3600) else t)
        else t) = t
      rw [if_neg (by linarith)]

/-- Witness for C8 (amended): at the counterexample input the total stays `0`
while the last sample advances to `(10, 3)`. -/
theorem C8_skip_advances_last_witness :
    (integrator_step ⟨0, some 10, some 2⟩ 10 3).total = (0 : ℚ)
    ∧ (integrator_step ⟨0, some 10, some 2⟩ 10 3).last_ts = some (10 : ℚ)
    ∧ (integrator_step ⟨0, some 10, some 2⟩ 10 3).last_kw = some (3 : ℚ) :=
  C8_skip_advances_last ⟨0, some 10, some 2⟩ 10 3 10 rfl (by norm_num)

/-! ## C9: reconnect backoff bounds -/

theorem backoffTrace_bounds (outcomes : List Bool) : ∀ b : Nat, 1 ≤ b → b ≤ 30 →
    ∀ v ∈ backoffTrace b outcomes, 1 ≤ v ∧ v ≤ 30 := by
  induction outcomes with
  | nil =>
      intro b h1 h2 v hv
      cases hv
  | cons s rest ih =>
      intro b h1 h2 v hv
      rcases List.mem_cons.mp hv with h | h
      · subst h
        cases s <;> simp [sleptBackoff]
        all_goals omega
      · refine ih (nextBackoff b s) ?_ ?_ v h <;>
          cases s <;> simp [nextBackoff, sleptBackoff]
        all_goals omega

/-- C9: every backoff delay slept between `_runner` connection cycles lies in
`[1, 30]` seconds: the trace starts at 1, is reset to 1 by any successful
connection, and otherwise doubles capped at 30. -/
theorem C9_backoff_bounded (outcomes : List Bool) :
    (∀ v ∈ backoffTrace 1 outcomes, 1 ≤ v ∧ v ≤ 30)
    ∧ (∀ rest, (backoffTrace 1 (false :: rest)).head? = some 1)
    ∧ (∀ (b : Nat) (rest : List Bool), (backoffTrace b (true :: rest)).head? = some 1)
    ∧ (∀ (b : Nat) (s : Bool), nextBackoff b s = min (sleptBackoff b s * 2) 30) :=
  ⟨backoffTrace_bounds outcomes 1 (by omega) (by omega),
    fun _ => rfl, fun _ _ => rfl, fun _ _ => rfl⟩

/-- Witness for C9: after six straight failures the trace is
`[1, 2, 4, 8, 16, 30]`, and its member `30` satisfies the bounds. -/
theorem C9_backoff_bounded_witness : 1 ≤ 30 ∧ 30 ≤ 30 :=
  (C9_backoff_bounded [false, false, false, false, false, false]).1 30 (by decide)

/-! ## C10: the hub is not restartable in-process -/

/-- C10: `async_stop` never clears the internal task handles, and
`async_start` is a no-op whenever the runner-task handle is set; hence after
a start followed by a stop, every further `async_start` changes nothing and
starts neither the WebSocket runner nor the poller. -/
theorem C10_not_restartable (e e2 : Bool) (s : HubState) :
    ((async_stop s).task = s.task ∧ (async_stop s).poll_task = s.poll_task)
    ∧ (s.task = true → async_start e s = ⟨s, false, false⟩)
    ∧ async_start e2 (async_stop (async_start e s).state)
        = ⟨async_stop (async_start e s).state, false, false⟩ := by
  have hstart : ∀ (e0 : Bool) (y : HubState), y.task = true →
      async_start e0 y = ⟨y, false, false⟩ := by
    intro e0 y h
    simp [async_start, h]
  have htask : (async_stop ((async_start e s).state)).task = true := by
    show (async_start e s).state.task = true
    by_cases h : s.task <;> cases e <;> simp [async_start, h]
  exact ⟨⟨rfl, rfl⟩, hstart e s, hstart e2 _ htask⟩

/-- Witness for C10: with the runner-task handle set, `async_start` returns
the state unchanged and creates no task. -/
theorem C10_not_restartable_witness :
    async_start true ⟨true, false, false, false, false, false⟩
      = ⟨⟨true, false, false, false, false, false⟩, false, false⟩ :=
  (C10_not_restartable true true ⟨true, false, false, false, false, false⟩).2.1 rfl
